import Mathlib

/-!
Shallow embedding of the Observability-Agent investigation pipeline
(`src/agent/confidence.py`, `src/agent/resilience.py`,
`src/retrieval/hybrid_query.py`, `src/agent/planner.py`,
`src/agent/validators.py`) together with proofs about the specified
behaviour.

Modelling conventions used throughout this file:
- Python floats are modelled as rationals; every numeric constant in the
  embedded code is a small decimal and the `min`/`max` clamping used by the
  code is exact, so no rounding behaviour is lost.
- Python dicts that the code iterates in insertion order are modelled as
  association lists in the same order.
- Python sets are modelled as deduplicated lists with membership semantics.
- Wall-clock reads (`time.time()`) are passed in explicitly as a `now`
  argument.
-/

namespace ObsAgent


/-! ## Confidence model (`src/agent/confidence.py`) -/

/-- Result record of the confidence model (confidence.py lines 24-30). -/
structure ConfidenceResult where
  confidence : ℚ
  reasons : List String
  tier : String := ("low")
  next_steps : List String := []
  signal_contributions : List (String × ℚ) := []
deriving Repr, DecidableEq

/-- Embedding of `_classify_tier` (confidence.py lines 33-38). -/
def _classify_tier (score : ℚ) : String :=
  if score ≥ 0.55 then ("high")
  else if score ≥ 0.25 then ("medium")
  else ("low")

/-- Embedding of `_compute_next_steps` (confidence.py lines 41-86). -/
def _compute_next_steps (tier : String) (sources_available : List (String × Bool))
    (has_logs has_traces has_metrics has_incidents : Bool)
    (time_range_label : String) : List String :=
  let missing := (sources_available.filter (fun p => !p.2)).map (fun p => p.1)
  let steps :=
    if tier = ("low") then
      let s1 :=
        (if ("logs") ∈ missing then [("Fetch missing logs")] else [])
        ++ (if ("traces") ∈ missing then [("Include traces")] else [])
        ++ (if ("metrics") ∈ missing then [("Add metrics data")] else [])
        ++ (if ("incidents") ∈ missing then [("Search historical incidents")] else [])
      let s2 :=
        if missing = [] then
          s1 ++ (if time_range_label = ("15m") ∨ time_range_label = ("1h")
                 then [("Expand time range to 6h")] else [("Expand time range to 24h")])
             ++ [("Try a broader service scope")]
        else s1
      if s2 = [] then [("Broaden time range or scope")] else s2
    else if tier = ("medium") then
      let s1 :=
        (if !has_traces then [("Include traces to correlate")] else [])
        ++ (if !has_metrics then [("Add metrics for anomaly detection")] else [])
        ++ (if !has_incidents then [("Check historical incidents")] else [])
        ++ (if time_range_label = ("15m") then [("Expand to 1h for more context")] else [])
      if s1 = [] then [("Add more service context")] else s1
    else
      [("Review proposed remediations"), ("Create Kibana case")]
  steps.take 3

/-- Signal-weight sum of `compute_confidence_elastic` (confidence.py lines 167-186). -/
def signalScore (has_apm_errors_spike has_logs_error_burst has_latency_anomaly has_alert_fired : Bool) : ℚ :=
  (if has_apm_errors_spike then 0.20 else 0)
    + (if has_logs_error_burst then 0.20 else 0)
    + (if has_latency_anomaly then 0.20 else 0)
    + (if has_alert_fired then 0.10 else 0)

/-- Closure-memory bonus of `compute_confidence_elastic` (confidence.py lines 188-198). -/
def closureBonus (closure_match_score : ℚ) : ℚ :=
  if closure_match_score ≥ 0.7 then 0.15
  else if closure_match_score ≥ 0.4 then 0.08
  else 0

/-- Evidence-count bonus of `compute_confidence_elastic` (confidence.py lines 200-218). -/
def evidenceBonus (evidence_count : ℤ) : ℚ :=
  if evidence_count ≥ 10 then 0.15
  else if evidence_count ≥ 5 then 0.10
  else if evidence_count ≥ 2 then 0.05
  else 0

/-- Accumulated missing-source penalty before the cap, iterating the
`sources_available` dict in insertion order (confidence.py lines 221-228). -/
def missingPenalty : List (String × Bool) → ℚ
  | [] => 0
  | (_, available) :: rest => (if available then 0 else 0.05) + missingPenalty rest

/-- Raw additive score of `compute_confidence_elastic` before clamping:
signal weights plus closure and evidence bonuses minus the capped
missing-source penalty (confidence.py lines 163-229). -/
def rawScoreElastic (a b c d : Bool) (sources : List (String × Bool)) (n : ℤ) (q : ℚ) : ℚ :=
  signalScore a b c d + closureBonus q + evidenceBonus n - min (missingPenalty sources) 0.20

/-- Models the percent formatting (zero decimals) used in reason strings. -/
def pyFormatPercent (q : ℚ) : String :=
  toString (round (q * 100)) ++ ("%")

/-- Embedding of `compute_confidence_elastic` (confidence.py lines 149-252). -/
def compute_confidence_elastic
    (has_apm_errors_spike has_logs_error_burst has_latency_anomaly has_alert_fired : Bool)
    (sources_available : List (String × Bool)) (evidence_count : ℤ)
    (time_range_label : String) (closure_match_score : ℚ) : ConfidenceResult :=
  let reasons0 :=
    (if has_apm_errors_spike then [("APM errors spike in same window")] else [])
    ++ (if has_logs_error_burst then [("Logs error burst matches time window")] else [])
    ++ (if has_latency_anomaly then [("Latency p95 increase detected")] else [])
    ++ (if has_alert_fired then [("Alert fired for same service")] else [])
    ++ (if closure_match_score ≥ 0.7 then
          [("Strong match to previously resolved incident (")
            ++ pyFormatPercent closure_match_score ++ (")")]
        else if closure_match_score ≥ 0.4 then
          [("Moderate match to resolved incident (")
            ++ pyFormatPercent closure_match_score ++ (")")]
        else [])
    ++ (if evidence_count ≥ 10 then [toString evidence_count ++ (" evidence items (strong)")]
        else if evidence_count ≥ 5 then [toString evidence_count ++ (" evidence items (good)")]
        else if evidence_count ≥ 2 then [toString evidence_count ++ (" evidence items (minimal)")]
        else if evidence_count = 0 then [("No evidence found")]
        else [])
    ++ (sources_available.filter (fun p => !p.2)).map (fun p => ("Missing source: ") ++ p.1)
  let contributions :=
    (if has_apm_errors_spike then [(("apm_errors"), (0.20 : ℚ))] else [])
    ++ (if has_logs_error_burst then [(("logs_burst"), (0.20 : ℚ))] else [])
    ++ (if has_latency_anomaly then [(("latency"), (0.20 : ℚ))] else [])
    ++ (if has_alert_fired then [(("alert"), (0.10 : ℚ))] else [])
    ++ (if closure_match_score ≥ 0.7 then [(("closure_match"), (0.15 : ℚ))]
        else if closure_match_score ≥ 0.4 then [(("closure_match"), (0.08 : ℚ))]
        else [])
    ++ (if evidence_count ≥ 10 then [(("evidence_count"), (0.15 : ℚ))]
        else if evidence_count ≥ 5 then [(("evidence_count"), (0.10 : ℚ))]
        else if evidence_count ≥ 2 then [(("evidence_count"), (0.05 : ℚ))]
        else if evidence_count = 0 then [(("evidence_count"), (0 : ℚ))]
        else [])
    ++ (sources_available.filter (fun p => !p.2)).map
         (fun p => (("missing_") ++ p.1, (-0.05 : ℚ)))
  let reasons := if reasons0 = [] then [("No signals detected — broaden scope")] else reasons0
  let confidence := max 0 (min 0.95
    (rawScoreElastic has_apm_errors_spike has_logs_error_burst has_latency_anomaly
      has_alert_fired sources_available evidence_count closure_match_score))
  let tier := _classify_tier confidence
  let next_steps := _compute_next_steps tier sources_available
    has_logs_error_burst has_apm_errors_spike has_latency_anomaly has_alert_fired
    time_range_label
  { confidence := confidence, reasons := reasons, tier := tier,
    next_steps := next_steps, signal_contributions := contributions }

/-! ## Circuit breaker (`src/agent/resilience.py`) -/

/-- State record of a `CircuitBreaker` (resilience.py lines 29-41).
The `_state` string is one of closed, open, half-open, exactly as the
Python attribute. -/
structure CircuitBreaker where
  name : String
  failure_threshold : Nat
  recovery_timeout : ℚ
  _failures : Nat
  _last_failure : ℚ
  _state : String
deriving Repr, DecidableEq

/-- Embedding of `CircuitBreaker.__init__` (resilience.py lines 35-41):
zero failures, last-failure time 0.0, state closed. -/
def CircuitBreaker.init (name : String) (failure_threshold : Nat) (recovery_timeout : ℚ) :
    CircuitBreaker :=
  { name := name
    failure_threshold := failure_threshold
    recovery_timeout := recovery_timeout
    _failures := 0
    _last_failure := 0
    _state := ("closed") }

/-- Embedding of the `state` property (resilience.py lines 43-48): when the
stored state is open and more than `recovery_timeout` has elapsed since the
last failure, the stored state mutates to half-open; the (possibly updated)
breaker is returned together with the state string. -/
def CircuitBreaker.state (b : CircuitBreaker) (now : ℚ) : CircuitBreaker × String :=
  if b._state = ("open") ∧ now - b._last_failure > b.recovery_timeout then
    let b2 := { b with _state := ("half-open") }
    (b2, b2._state)
  else (b, b._state)

/-- Embedding of `record_success` (resilience.py lines 50-52). -/
def CircuitBreaker.record_success (b : CircuitBreaker) : CircuitBreaker :=
  { b with
    _failures := 0
    _state := ("closed") }

/-- Embedding of `record_failure` (resilience.py lines 54-59). -/
def CircuitBreaker.record_failure (b : CircuitBreaker) (now : ℚ) : CircuitBreaker :=
  let f := b._failures + 1
  { b with
    _failures := f
    _last_failure := now
    _state := (if f ≥ b.failure_threshold then ("open") else b._state) }

/-- Embedding of `allow_request` (resilience.py lines 61-67): evaluates the
`state` property (which may mutate open into half-open) and permits the
request when the state string is closed or half-open. -/
def CircuitBreaker.allow_request (b : CircuitBreaker) (now : ℚ) : CircuitBreaker × Bool :=
  let p := b.state now
  if p.2 = ("closed") then (p.1, true)
  else if p.2 = ("half-open") then (p.1, true)
  else (p.1, false)

/-! ## Keyword extraction (`src/agent/planner.py` lines 163-168) -/

/-- Characters removed by the Python call `.strip("?.,!;:")`. -/
def stripChars : List Char := ['?', '.', ',', '!', ';', ':']

/-- Python `str.split()` with no argument: split on whitespace runs and drop
empty tokens. Implemented as a left-to-right scan with an accumulator of the
current (reversed) token. -/
def pyWordsAux : List Char → List Char → List String
  | [], cur => if cur = [] then [] else [String.mk cur.reverse]
  | c :: rest, cur =>
      if c.isWhitespace then
        (if cur = [] then pyWordsAux rest [] else String.mk cur.reverse :: pyWordsAux rest [])
      else pyWordsAux rest (c :: cur)

/-- Python `text.split()`. -/
def pyWords (s : String) : List String := pyWordsAux s.data []

/-- Python `str.lower()` (ASCII case folding, which is all the code feeds it). -/
def pyLower (s : String) : String := String.mk (s.data.map Char.toLower)

/-- Python `str.strip()` with no argument: whitespace removed from both
ends. -/
def pyTrim (s : String) : String :=
  String.mk (((s.data.dropWhile Char.isWhitespace).reverse.dropWhile Char.isWhitespace).reverse)

/-- Python `str.strip("?.,!;:")`: removes the given characters from BOTH ends
of the string. -/
def pyStrip (s : String) : String :=
  String.mk (((s.data.dropWhile (· ∈ stripChars)).reverse.dropWhile (· ∈ stripChars)).reverse)

/-- Stop-word set of `_extract_keywords` (planner.py lines 165-166). -/
def stop_words : List String :=
  [("the"), ("a"), ("an"), ("is"), ("are"), ("was"), ("were"), ("in"), ("on"), ("at"), ("to"),
   ("for"), ("of"), ("with"), ("by"), ("from"), ("what"), ("why"), ("how"), ("when"), ("where"),
   ("which")]

/-- Embedding of `_extract_keywords` (planner.py lines 163-168): the set
comprehension `set(w.lower().strip("?.,!;:") for w in text.split() if len(w) > 2)`
minus the stop-word set, modelled as a deduplicated list. The length filter
runs on the raw token BEFORE lower-casing and stripping, exactly as in the
source. -/
def _extract_keywords (text : String) : List String :=
  ((((pyWords text).filter (fun w => w.length > 2)).map
      (fun w => pyStrip (pyLower w))).dedup).filter (fun w => w ∉ stop_words)

/-! ## Hybrid retrieval RRF fusion (`src/retrieval/hybrid_query.py`) -/

/-- RRF constant (hybrid_query.py line 16). -/
def RRF_K : ℕ := 60

/-- Embedding of `_rrf_score` (hybrid_query.py lines 34-35). -/
def _rrf_score (rank : ℕ) : ℚ := 1 / (RRF_K + rank)

/-- Per-document accumulator of the fusion loops: lexical and vector RRF
sums (the third tuple slot of the Python code is recomputed from these two
in the final loop, so it is not stored). -/
abbrev ScorePair := ℚ × ℚ

/-- Python `scores.get(doc_id, default)` on the insertion-ordered dict. -/
def dictGet : List (String × ScorePair) → String → ScorePair
  | [], _ => (0, 0)
  | (k, v) :: rest, d => if k = d then v else dictGet rest d

/-- Python `scores[doc_id] = v`: replace the value in place if the key is
present, otherwise append the binding. -/
def dictSet : List (String × ScorePair) → String → ScorePair → List (String × ScorePair)
  | [], d, v => [(d, v)]
  | (k, w) :: rest, d, v => if k = d then (k, v) :: rest else (k, w) :: dictSet rest d v

/-- Key sequence of the insertion-ordered dict. -/
def keysOf (m : List (String × ScorePair)) : List String := m.map (fun p => p.1)

/-- First fusion loop (hybrid_query.py lines 105-110): each lexical hit at
0-indexed `rank` adds `_rrf_score rank` to its lexical component. -/
def lexPass : List String → ℕ → List (String × ScorePair) → List (String × ScorePair)
  | [], _, m => m
  | d :: rest, rank, m =>
      let prev := dictGet m d
      lexPass rest (rank + 1) (dictSet m d (prev.1 + _rrf_score rank, prev.2))

/-- Second fusion loop (hybrid_query.py lines 112-117): vector component. -/
def vecPass : List String → ℕ → List (String × ScorePair) → List (String × ScorePair)
  | [], _, m => m
  | d :: rest, rank, m =>
      let prev := dictGet m d
      vecPass rest (rank + 1) (dictSet m d (prev.1, prev.2 + _rrf_score rank))

/-- Result rows of `hybrid_query`; the denormalised source fields (message,
timestamp, service, trace id) do not affect scoring and are omitted. -/
structure HybridResult where
  doc_id : String
  score_lexical : ℚ
  score_vector : ℚ
  score_fused : ℚ
deriving Repr, DecidableEq

/-- Third loop (hybrid_query.py lines 119-122): fused = lexical + vector. -/
def fuseAll (m : List (String × ScorePair)) : List HybridResult :=
  m.map (fun p => { doc_id := p.1, score_lexical := p.2.1, score_vector := p.2.2,
                    score_fused := p.2.1 + p.2.2 })

/-- Stable descending insertion by fused score. -/
def insertDesc (x : HybridResult) : List HybridResult → List HybridResult
  | [] => [x]
  | y :: ys => if y.score_fused < x.score_fused then x :: y :: ys else y :: insertDesc x ys

/-- Stable descending sort by fused score, modelling the stable Python
`sorted(scores.keys(), key=lambda x: -scores[x][2])` (line 125). -/
def sortDesc (l : List HybridResult) : List HybridResult :=
  l.foldl (fun acc x => insertDesc x acc) []

/-- Fusion-and-ranking core of `hybrid_query` (lines 101-145), taking the
two hit lists as document-id sequences in rank order: RRF-fuse, sort
descending by fused score, truncate to `top_k`. -/
def hybrid_query_fuse (lexical_hits vector_hits : List String) (top_k : ℕ) : List HybridResult :=
  (sortDesc (fuseAll (vecPass vector_hits 0 (lexPass lexical_hits 0 [])))).take top_k

/-- Value of the first fusion loop when all keys are fresh: one binding per
lexical hit, lexical component `_rrf_score` of its rank, vector component 0. -/
def freshLex : List String → ℕ → List (String × ScorePair)
  | [], _ => []
  | d :: rest, r => (d, (_rrf_score r, 0)) :: freshLex rest (r + 1)

/-- Descending-by-fused-score ordering on fused results. -/
def fusedGE (a b : HybridResult) : Prop := b.score_fused ≤ a.score_fused

/-! ## Planner (`src/agent/planner.py`, with `src/agent/validators.py`) -/

/-- Evidence item as consumed by the planner; the dict keys it reads are
`message`, `trace.id` and `links`. -/
structure Finding where
  message : Option String := none
  trace_id : Option String := none
  links : List String := []
deriving Repr, DecidableEq

/-- Similar-incident record as consumed by the planner. -/
structure Incident where
  root_cause : Option String := none
  fix_steps : Option String := none
deriving Repr, DecidableEq

/-- Stored closure record as consumed by `_match_closures` and the
injection step; the Python keyword set is modelled as a deduplicated list. -/
structure Closure where
  question_keywords : List String := []
  service : String := ("")
  root_cause : String := ("")
  signals_used : List String := []
deriving Repr, DecidableEq

/-- Evidence row of `tool_propose_fix` as consumed by the planner. -/
structure FixEvidence where
  proposed_action : String := ("")
  risk_level : String := ("medium")
deriving Repr, DecidableEq

/-- Remediation entry of the planner output. -/
structure Remediation where
  action : String
  risk_level : String
deriving Repr, DecidableEq

/-- Attempt record appended to `_attempt_history[fp]` (planner.py lines
500-506). -/
structure AttemptRec where
  attempt : ℕ
  confidence : ℚ
  missing : List String
  signals : List (String × ℕ)
  timestamp : ℚ
deriving Repr, DecidableEq

/-- Run-delta record (planner.py lines 516-521); the empty dict produced
when there is no previous attempt is modelled as `none`. -/
structure RunDelta where
  signals_added : ℤ
  confidence_delta : ℚ
  missing_resolved : List String
  root_cause_changed : Bool
deriving Repr, DecidableEq

/-- Pipeline artifacts (planner.py lines 42-52). -/
structure PipelineArtifacts where
  signals_gathered : List (String × ℕ) := []
  signals_total : ℕ := 0
  correlation_score : ℚ := 0
  correlated_trace_ids : List String := []
  hypothesis_list : List (String × String) := []
  gather_complete : Bool := false
  correlate_complete : Bool := false
  root_cause_complete : Bool := false
deriving Repr, DecidableEq

/-- Planner input (planner.py lines 55-70); the progress callback only has
side effects, so it is modelled by whether one was supplied. -/
structure PlannerInput where
  question : String
  service : Option String := none
  env : Option String := none
  attempt_number : ℕ := 1
  time_range_label : String := ("1h")
  has_progress_callback : Bool := false
deriving Repr, DecidableEq

/-- Results of the external collaborators consumed by one `run_planner`
invocation (Elasticsearch searches, LLM, fix proposer, process clock). The
tool wrappers in `agent/tools.py` catch their own exceptions and return
evidence lists, so modelling them as plain result data is faithful; the
LLM summary is `none` when the call failed or returned nothing. -/
structure PlannerEnv where
  es_ok : Bool := true
  es_error_msg : String := ("")
  log_evidence : List Finding := []
  trace_evidence : List Finding := []
  metric_evidence : List Finding := []
  change_evidence : List Finding := []
  incident_evidence : List Incident := []
  llm_summary : Option String := none
  fix_evidence : List FixEvidence := []
  closure_memory : List Closure := []
  now : ℚ := 0
deriving Repr, DecidableEq

/-- Planner output (planner.py lines 73-91); the scope dict is represented
by its constituents, with the conditionally added correlated trace ids. -/
structure PlannerOutput where
  scope_question : String
  scope_service : Option String
  scope_env : Option String
  scope_correlated_trace_ids : Option (List String)
  findings : List Finding
  similar_incidents : List Incident
  root_cause_candidates : List String
  remediations : List Remediation
  confidence : ConfidenceResult
  evidence_links : List String
  attempt_number : ℕ
  attempt_message : String
  missing_signals : List String
  pipeline_artifacts : PipelineArtifacts
  root_cause_states : List (String × String)
  run_delta : Option RunDelta
deriving Repr, DecidableEq

/-- Python truthiness of an optional string (None and empty string falsy). -/
def optTruthy : Option String → Bool
  | none => false
  | some s => s != ("")

/-- Python string slice `s[:n]` (character count). -/
def pyTake (s : String) (n : ℕ) : String := String.mk (s.data.take n)

/-- Python `a in b` on strings. -/
def strIn (a b : String) : Bool := decide (a.data <:+: b.data)

/-- Python `repr` of a list of strings, as consumed by the `in str(...)`
dedup check at planner.py line 369; exact for strings containing no quote,
backslash or control characters. -/
def pyReprStrList (l : List String) : String :=
  ("[") ++ String.intercalate (", ") (l.map (fun s => ("\x27") ++ s ++ ("\x27"))) ++ ("]")

/-- Python `" ".join((f.get("message") or "")[:100] for f in findings[:10]).lower()`
(planner.py line 181). -/
def findingMessagesText (findings : List Finding) : String :=
  pyLower (String.intercalate (" ")
    ((findings.take 10).map (fun f => pyTake (f.message.getD ("")) 100)))

/-- Keyword-overlap component of the closure match: Jaccard ratio over the
two keyword sets (planner.py lines 189-193). -/
def kwOverlap (q c : List String) : ℚ :=
  ((q.filter (fun k => k ∈ c)).length : ℚ)
    / ((max (q.length + (c.filter (fun k => k ∉ q)).length) 1 : ℕ) : ℚ)

/-- Signal types derived from the current findings (planner.py lines
204-211): traces when any finding has a truthy trace id, logs when any has
a truthy message. -/
def currentSignals (findings : List Finding) : List String :=
  (if findings.any (fun f => optTruthy f.trace_id) then [("traces")] else [])
  ++ (if findings.any (fun f => optTruthy f.message) then [("logs")] else [])

/-- Score of one stored closure against the current investigation: the sum
of the four bounded components (planner.py lines 186-213). -/
def closureScore (question_kw : List String) (service : Option String)
    (finding_messages : String) (current_sigs : List String) (closure : Closure) : ℚ :=
  (if question_kw ≠ [] ∧ closure.question_keywords ≠ [] then
      kwOverlap question_kw closure.question_keywords * 0.4
    else 0)
  + (if optTruthy service ∧ closure.service ≠ ("")
        ∧ pyLower (service.getD ("")) = pyLower closure.service then 0.2 else 0)
  + (let rc := pyLower closure.root_cause
     if rc ≠ ("") ∧ (((pyWords rc).take 5).filter (fun kw => kw.length > 3)).any
          (fun kw => strIn kw finding_messages) then 0.3 else 0)
  + (if closure.signals_used ≠ [] ∧ current_sigs ≠ []
        ∧ closure.signals_used.any (fun s => s ∈ current_sigs) then 0.1 else 0)

/-- Best-closure fold with strict improvement, keeping the first maximum
(planner.py lines 183-217). -/
def bestClosureAux (score : Closure → ℚ) : List Closure → ℚ × Option Closure → ℚ × Option Closure
  | [], acc => acc
  | c :: rest, acc =>
      bestClosureAux score rest (if score c > acc.1 then (score c, some c) else acc)

/-- Embedding of `_match_closures` (planner.py lines 171-219). -/
def _match_closures (question : String) (service : Option String)
    (findings : List Finding) (memory : List Closure) : ℚ × Option Closure :=
  if memory = [] then (0, none)
  else
    let question_kw := _extract_keywords question
    let fm := findingMessagesText findings
    let cs := currentSignals findings
    let best := bestClosureAux (closureScore question_kw service fm cs) memory (0, none)
    (min best.1 1, best.2)

/-- Embedding of `_classify_root_cause_state` (planner.py lines 222-236);
the candidate text parameter is unused by the source as well. -/
def _classify_root_cause_state (_candidate : String) (findings_count : ℕ)
    (correlation_score : ℚ) (similar_match : Bool) (confidence : ℚ) : String :=
  if confidence ≥ 0.7 ∧ similar_match = true ∧ correlation_score > 0.5 then ("confirmed")
  else if correlation_score > 0.3 ∧ findings_count ≥ 3 then ("probable")
  else if findings_count ≥ 1 then ("correlated")
  else ("observed")

/-- Embedding of `require_citations` (validators.py lines 23-33) on the
claims built by the planner, each carrying `findings[:2]` as citations. -/
def require_citations (claims : List (String × List Finding)) : Bool :=
  claims.all (fun c => !c.2.isEmpty)

/-- Embedding of `validate_before_propose` (validators.py lines 43-55):
evidence count over findings + incidents at the default minimum 2, plus the
citations check; only the boolean verdict is consumed by the planner. -/
def validate_before_propose (findings : List Finding) (incidents : List Incident)
    (claims : List (String × List Finding)) : Bool :=
  decide (findings.length + incidents.length ≥ 2) && require_citations claims

/-- Best-state accumulation loop over the candidate states, with the early
break on confirmed (planner.py lines 396-404). -/
def bestStateAux (best : String) : List String → String
  | [] => best
  | s :: rest =>
      if s = ("confirmed") then ("confirmed")
      else
        let b1 := if s = ("probable") ∧ best ≠ ("confirmed") then ("probable") else best
        let b2 := if s = ("correlated") ∧ b1 ≠ ("probable") ∧ b1 ≠ ("confirmed")
                  then ("correlated") else b1
        bestStateAux b2 rest

/-- Best state among all candidate states (planner.py lines 396-404). -/
def bestStateOf (states : List String) : String := bestStateAux ("observed") states

/-- Remediation gate (planner.py lines 406-417). -/
def remediationsFor (best : String) (findings : List Finding) (incidents : List Incident)
    (candidates : List String) (fixes : List FixEvidence) : List Remediation :=
  if best = ("probable") ∨ best = ("confirmed") then
    let claims := candidates.map (fun rc => (rc, findings.take 2))
    if validate_before_propose findings incidents claims then
      (fixes.take 3).map (fun e => { action := e.proposed_action, risk_level := e.risk_level })
    else [{ action := ("Gather more evidence before applying fix"), risk_level := ("low") }]
  else if best = ("correlated") then
    [{ action := ("Gather more evidence to confirm hypothesis"), risk_level := ("low") }]
  else
    [{ action := ("Broaden scope or add missing signal sources"), risk_level := ("low") }]

/-- Sentinel candidate text (planner.py line 375). -/
def insufficientText : String := ("Insufficient evidence – gather more signals")

/-- Python `bool(lst and lst[0] != insufficientText)` (planner.py lines 377
and 520). -/
def headNotInsufficient : List String → Bool
  | [] => false
  | c :: _ => c != insufficientText

/-- Candidate contributed by a truthy LLM summary, stripped (planner.py
lines 361-367; exceptions from the LLM call are swallowed there). -/
def llmCandidates : Option String → List String
  | none => []
  | some s => if s ≠ ("") then [pyTrim s] else []

/-- Candidates contributed by the top-3 similar incidents, with the
repr-substring dedup check recomputed on the growing list (planner.py lines
368-370). -/
def incidentCandidates (incidents : List Incident) (acc0 : List String) : List String :=
  (incidents.take 3).foldl
    (fun acc inc =>
      match inc.root_cause with
      | none => acc
      | some rc =>
          if rc ≠ ("") ∧ ¬ (strIn rc (pyReprStrList acc) = true) then acc ++ [pyTake rc 200]
          else acc)
    acc0

/-- Gathered findings in planner order: logs, traces, metrics, changes
(planner.py lines 300-303). -/
def findingsOf (env : PlannerEnv) : List Finding :=
  env.log_evidence ++ env.trace_evidence ++ env.metric_evidence ++ env.change_evidence

/-- Per-source counts in dict insertion order (planner.py lines 306-311). -/
def signalsGathered (env : PlannerEnv) : List (String × ℕ) :=
  [(("logs"), env.log_evidence.length), (("traces"), env.trace_evidence.length),
   (("metrics"), env.metric_evidence.length), (("changes"), env.change_evidence.length)]

/-- Number of source types with data (planner.py line 333). -/
def sourcesWithData (env : PlannerEnv) : ℕ :=
  ((signalsGathered env).filter (fun p => p.2 > 0)).length

/-- Correlation score: cross-source ratio capped at 1, bumped by 0.2 when
similar incidents exist (planner.py lines 334 and 343). -/
def correlationScoreOf (env : PlannerEnv) : ℚ :=
  let c0 := min 1 ((sourcesWithData env : ℚ) / 3)
  if env.incident_evidence ≠ [] then min 1 (c0 + 0.2) else c0

/-- Missing-signal list (planner.py lines 316-322 and 347-348). -/
def missingSignalsOf (env : PlannerEnv) : List String :=
  (if env.log_evidence.length = 0 then [("logs")] else [])
  ++ (if env.trace_evidence.length = 0 then [("traces")] else [])
  ++ (if env.metric_evidence.length = 0 then [("metrics")] else [])
  ++ (if env.incident_evidence.length = 0 then [("incidents")] else [])

/-- Root-cause candidate generation (planner.py lines 350-377). -/
def candidatesStage (env : PlannerEnv) : List String :=
  let c0 :=
    if sourcesWithData env ≥ 1 then
      let c1 := llmCandidates env.llm_summary
      let c2 := incidentCandidates env.incident_evidence c1
      if c2 = [] ∧ env.change_evidence ≠ [] then c2 ++ [("Recent deployment or config change")]
      else c2
    else []
  if c0 = [] then [insufficientText] else c0

/-- First state classification, before confidence is known, with
confidence 0 (planner.py lines 380-389). -/
def preStatesOf (env : PlannerEnv) : List (String × String) :=
  (candidatesStage env).map (fun rc =>
    (rc, _classify_root_cause_state rc (findingsOf env).length (correlationScoreOf env)
      (!env.incident_evidence.isEmpty) 0))

/-- Closure-memory match of the current run (planner.py line 420). -/
def closureMatchOf (inp : PlannerInput) (env : PlannerEnv) : ℚ × Option Closure :=
  _match_closures inp.question inp.service (findingsOf env) env.closure_memory

/-- Past-resolution injection (planner.py lines 421-432). -/
def injectedCandidates (cands : List String) (score : ℚ) (mc : Option Closure) : List String :=
  match mc with
  | none => cands
  | some c =>
      if score ≥ 0.4 then
        let past_rc := c.root_cause
        let is_present := cands.any (fun cand => strIn past_rc cand)
        if past_rc ≠ ("") ∧ is_present = false then
          cands ++ [("[Past resolution] ") ++ pyTake past_rc 200]
        else cands
      else cands

/-- Confidence invocation of the planner (planner.py lines 434-454), with
the sources-available dict in its insertion order. -/
def confidenceOf (inp : PlannerInput) (env : PlannerEnv) : ConfidenceResult :=
  let has_log_burst := decide (env.log_evidence.length > 0)
  let has_apm_errors := decide (env.trace_evidence.length > 0)
  let has_latency := decide (env.metric_evidence.length > 0)
  let has_alert := !env.incident_evidence.isEmpty
  compute_confidence_elastic has_apm_errors has_log_burst has_latency has_alert
    [(("logs"), has_log_burst), (("metrics"), has_latency), (("traces"), has_apm_errors),
     (("incidents"), has_alert)]
    ((findingsOf env).length : ℤ) inp.time_range_label (closureMatchOf inp env).1

/-- Re-classification once confidence is known (planner.py lines 456-464);
the same mutated list is exposed as both `root_cause_states` and
`pipeline_artifacts.hypothesis_list`. -/
def finalStatesOf (inp : PlannerInput) (env : PlannerEnv) : List (String × String) :=
  (preStatesOf env).map (fun p =>
    (p.1, _classify_root_cause_state p.1 (findingsOf env).length (correlationScoreOf env)
      (!env.incident_evidence.isEmpty) (confidenceOf inp env).confidence))

/-- Python `f"{x:.0f}"`, modelled with integer rounding. -/
def fmtPct (q : ℚ) : String := toString (round q)

/-- Attempt message (planner.py lines 474-497). Python set iteration order
is unspecified; the joins here keep the underlying list order. -/
def attemptMessageOf (attempt_number : ℕ) (prev : List AttemptRec)
    (missing : List String) (conf : ℚ) : String :=
  if attempt_number = 1 then
    if missing ≠ [] then
      ("First analysis. Missing: ") ++ String.intercalate (", ") missing ++ (".")
    else ("First analysis. All signal sources responding.")
  else
    match prev.getLast? with
    | none => ("Attempt ") ++ toString attempt_number ++ (".")
    | some p =>
        let gained := p.missing.filter (fun s => s ∉ missing)
        let parts :=
          (if gained ≠ [] then [("Gained: ") ++ String.intercalate (", ") gained] else [])
          ++ (if missing ≠ [] then [("Still missing: ") ++ String.intercalate (", ") missing]
              else [])
          ++ (let d := conf - p.confidence
              if abs d > 0.01 then
                [("Confidence ") ++ (if d > 0 then ("↑") else ("↓")) ++ (" ")
                  ++ fmtPct (abs d * 100) ++ ("%")]
              else [])
        if attempt_number ≥ 3 ∧ missing ≠ [] ∧ conf < 0.3 then
          ("Attempt ") ++ toString attempt_number ++ (". ") ++ String.intercalate (". ") parts
            ++ (". Auto-widening scope recommended.")
        else if parts ≠ [] then
          ("Attempt ") ++ toString attempt_number ++ (". ") ++ String.intercalate (". ") parts
            ++ (".")
        else ("Attempt ") ++ toString attempt_number ++ (".")

/-- Sum of per-source counts, as in `sum(prev_signals.values())`
(planner.py line 514). -/
def sumSignals (l : List (String × ℕ)) : ℕ := (l.map (fun p => p.2)).sum

/-- Trace-id set computed inside the progress-callback branch (planner.py
line 327): truthy trace ids, deduplicated. -/
def traceIdsOf (findings : List Finding) : List String :=
  ((findings.filterMap (fun f => f.trace_id)).filter (fun t => t ≠ (""))).dedup

/-- Early degraded return when the Elasticsearch client cannot be built
(planner.py lines 259-278). -/
def esFailOutput (inp : PlannerInput) (env : PlannerEnv) : PlannerOutput :=
  let msg := if pyTrim env.es_error_msg = ("") then
      ("Elasticsearch is not configured. Set ELASTIC_URL and ELASTIC_API_KEY in the backend .env file.")
    else pyTrim env.es_error_msg
  { scope_question := inp.question
    scope_service := inp.service
    scope_env := inp.env
    scope_correlated_trace_ids := none
    findings := []
    similar_incidents := []
    root_cause_candidates := [msg]
    remediations := [{ action := ("Configure ELASTIC_URL and ELASTIC_API_KEY in the backend .env, then restart the server."), risk_level := ("low") }]
    confidence := { confidence := 0, reasons := [msg] }
    evidence_links := []
    attempt_number := inp.attempt_number
    attempt_message := msg
    missing_signals := [("logs"), ("metrics"), ("traces"), ("incidents")]
    pipeline_artifacts := {}
    root_cause_states := []
    run_delta := none }

/-- Success body of `run_planner` (planner.py lines 280-537). The
process-wide `_attempt_history[fingerprint]` list for this scope is
threaded explicitly: the function receives the stored list and returns the
updated one. Note that in the source `prev_attempts` aliases the stored
history list and the current record is appended (line 500) before
`prev_run = prev_attempts[-1]` is read (line 509), so on every attempt
after the first the "previous" run IS the freshly appended record; the
`prev_run` binding below reproduces that. -/
def plannerSuccess (inp : PlannerInput) (env : PlannerEnv) (history : List AttemptRec) :
    PlannerOutput × List AttemptRec :=
  let findings := findingsOf env
  let trace_ids := traceIdsOf findings
  let cands := candidatesStage env
  let pre_states := preStatesOf env
  let best_state := bestStateOf (pre_states.map (fun p => p.2))
  let remediations :=
    remediationsFor best_state findings env.incident_evidence cands env.fix_evidence
  let cm := closureMatchOf inp env
  let cands2 := injectedCandidates cands cm.1 cm.2
  let confidence := confidenceOf inp env
  let states := finalStatesOf inp env
  let evidence_links := (findings.take 15).foldl (fun acc f => acc ++ f.links) []
  let attempt_number := history.length + 1
  let missing := missingSignalsOf env
  let attempt_message := attemptMessageOf attempt_number history missing confidence.confidence
  let rec0 : AttemptRec :=
    { attempt := attempt_number
      confidence := confidence.confidence
      missing := missing
      signals := signalsGathered env
      timestamp := env.now }
  let prev_run : Option AttemptRec := if history.isEmpty then none else some rec0
  let run_delta : Option RunDelta :=
    match prev_run with
    | none => none
    | some p =>
        some { signals_added := (findings.length : ℤ) - (sumSignals p.signals : ℤ)
               confidence_delta := confidence.confidence - p.confidence
               missing_resolved := p.missing.filter (fun s => s ∉ missing)
               root_cause_changed := headNotInsufficient cands2 }
  ({ scope_question := inp.question
     scope_service := inp.service
     scope_env := inp.env
     scope_correlated_trace_ids := (if trace_ids ≠ [] then some trace_ids else none)
     findings := findings
     similar_incidents := env.incident_evidence
     root_cause_candidates := cands2
     remediations := remediations
     confidence := confidence
     evidence_links := evidence_links
     attempt_number := attempt_number
     attempt_message := attempt_message
     missing_signals := missing
     pipeline_artifacts :=
         { signals_gathered := signalsGathered env
           signals_total := findings.length
           correlation_score := correlationScoreOf env
           correlated_trace_ids := trace_ids
           hypothesis_list := states
           gather_complete := true
           correlate_complete := decide (sourcesWithData env ≥ 1)
           root_cause_complete := headNotInsufficient cands }
     root_cause_states := states
     run_delta := run_delta },
   history ++ [rec0])

/-- Embedding of `run_planner` (planner.py lines 239-537): the ES check,
the `trace_ids` scoping fault, and on success the pipeline body
`plannerSuccess`. -/
def run_planner (inp : PlannerInput) (env : PlannerEnv) (history : List AttemptRec) :
    Except String (PlannerOutput × List AttemptRec) :=
  if env.es_ok = false then Except.ok (esFailOutput inp env, history)
  else
    match (if inp.has_progress_callback then some (traceIdsOf (findingsOf env)) else none) with
    | none =>
        Except.error ("UnboundLocalError: local variable trace_ids referenced before assignment")
    | some _trace_ids => Except.ok (plannerSuccess inp env history)

/-- Numeric rank of a state string under Confirmed > Probable > Correlated >
Observed; strings outside the four values are ignored by the gate loop and
rank 0, like observed. -/
def stateRank (s : String) : ℕ :=
  if s = ("confirmed") then 3
  else if s = ("probable") then 2
  else if s = ("correlated") then 1
  else 0

/-- State string of a given rank. -/
def stateOfRank (n : ℕ) : String :=
  if 3 ≤ n then ("confirmed")
  else if n = 2 then ("probable")
  else if n = 1 then ("correlated")
  else ("observed")

/-- Maximum rank over a list of state strings. -/
def maxRank (states : List String) : ℕ := (states.map stateRank).foldr max 0

/-- C10 witness data: a stored closure whose root cause appears in the
current log message, giving closure-match score 0.2 + 0.3 + 0.1 = 0.6. -/
def c_w : Closure :=
  { question_keywords := [], service := ("api"), root_cause := ("pool"),
    signals_used := [("logs")] }

/-- C10 witness input: empty question, matching service, callback present. -/
def inp_w : PlannerInput := ⟨(""), some ("api"), none, 1, ("1h"), true⟩

/-- C10 witness environment: one log finding and one stored closure. -/
def env_w : PlannerEnv :=
  { log_evidence := [{ message := some ("pool") }], closure_memory := [c_w] }

/-! ## Proofs -/

lemma compute_confidence_elastic_confidence
    (a b c d : Bool) (sources : List (String × Bool)) (n : ℤ) (lbl : String) (q : ℚ) :
    (compute_confidence_elastic a b c d sources n lbl q).confidence
      = max 0 (min 0.95 (rawScoreElastic a b c d sources n q)) := rfl

lemma clamp_mono {x y : ℚ} (h : x ≤ y) :
    max 0 (min (0.95 : ℚ) x) ≤ max 0 (min 0.95 y) :=
  max_le_max le_rfl (min_le_min le_rfl h)

/-- C1: for every combination of inputs (any boolean signals, any
closure-match score, any evidence count, any sources-available map), the
confidence value returned by `compute_confidence_elastic` lies in the
closed interval [0, 0.95]. -/
theorem confidence_elastic_bounded
    (a b c d : Bool) (sources : List (String × Bool)) (n : ℤ) (lbl : String) (q : ℚ) :
    0 ≤ (compute_confidence_elastic a b c d sources n lbl q).confidence
      ∧ (compute_confidence_elastic a b c d sources n lbl q).confidence ≤ 0.95 := by
  rw [compute_confidence_elastic_confidence]
  refine ⟨le_max_left _ _, max_le (by norm_num) (min_le_left _ _)⟩

/-- C6: `compute_confidence_elastic` is monotone in each boolean signal:
with all other parameters fixed, flipping any single one of the four
signals from false to true never decreases the returned confidence. -/
theorem confidence_elastic_signal_monotone
    (a b c d : Bool) (sources : List (String × Bool)) (n : ℤ) (lbl : String) (q : ℚ) :
    ((compute_confidence_elastic false b c d sources n lbl q).confidence
        ≤ (compute_confidence_elastic true b c d sources n lbl q).confidence)
    ∧ ((compute_confidence_elastic a false c d sources n lbl q).confidence
        ≤ (compute_confidence_elastic a true c d sources n lbl q).confidence)
    ∧ ((compute_confidence_elastic a b false d sources n lbl q).confidence
        ≤ (compute_confidence_elastic a b true d sources n lbl q).confidence)
    ∧ ((compute_confidence_elastic a b c false sources n lbl q).confidence
        ≤ (compute_confidence_elastic a b c true sources n lbl q).confidence) := by
  simp only [compute_confidence_elastic_confidence]
  refine ⟨clamp_mono ?_, clamp_mono ?_, clamp_mono ?_, clamp_mono ?_⟩ <;>
    · simp only [rawScoreElastic]
      apply sub_le_sub_right
      apply add_le_add_right
      apply add_le_add_right
      simp only [signalScore, Bool.false_eq_true, if_false, if_true]
      linarith

/-- C4: the missing-source penalty subtracted by
`compute_confidence_elastic` is 0.05 per missing declared source capped at
0.20, so it never exceeds 0.20 however many sources are marked
unavailable; consequently the confidence is bounded below by the clamp of
the un-penalised score minus 0.20. -/
theorem missing_penalty_capped
    (a b c d : Bool) (sources : List (String × Bool)) (n : ℤ) (lbl : String) (q : ℚ) :
    min (missingPenalty sources) 0.20 ≤ 0.20
    ∧ missingPenalty sources = 0.05 * ((sources.filter (fun p => !p.2)).length : ℚ)
    ∧ max 0 (min 0.95 (signalScore a b c d + closureBonus q + evidenceBonus n - 0.20))
        ≤ (compute_confidence_elastic a b c d sources n lbl q).confidence := by
  refine ⟨min_le_right _ _, ?_, ?_⟩
  · induction sources with
    | nil => simp [missingPenalty]
    | cons p rest ih =>
        rcases p with ⟨name, avail⟩
        cases avail <;> simp [missingPenalty, List.filter, ih] <;> push_cast <;> ring
  · rw [compute_confidence_elastic_confidence]
    refine clamp_mono ?_
    have h : min (missingPenalty sources) 0.20 ≤ 0.20 := min_le_right _ _
    simp only [rawScoreElastic]
    linarith

/-- C2 (refuting the exactly-one-probe claim on the code as written): with
`failure_threshold = 1` and `recovery_timeout = 30`, after a failure at
time 0 the breaker is half-open at time 31, and BOTH of two consecutive
`allow_request` calls made with no intervening `record_success` or
`record_failure` return true — the half-open breaker does not restrict
itself to a single probing attempt. -/
theorem half_open_allows_more_than_one_probe :
    ((((CircuitBreaker.init ("es") 1 30).record_failure 0).allow_request 31).2 = true)
    ∧ (((((CircuitBreaker.init ("es") 1 30).record_failure 0).allow_request 31).1.allow_request 31).2 = true)
    ∧ ((((CircuitBreaker.init ("es") 1 30).record_failure 0).allow_request 31).1._state = ("half-open"))
    ∧ (((((CircuitBreaker.init ("es") 1 30).record_failure 0).allow_request 31).1.allow_request 31).1._state = ("half-open")) := by
  norm_num [CircuitBreaker.init, CircuitBreaker.record_failure, CircuitBreaker.allow_request,
    CircuitBreaker.state]

/-- C9 counterexample: on the input string of three question marks, the token
has raw length 3 (> 2), so it survives the filter and is then stripped down
to the empty string, which is not a stop word; the extracted keyword set
therefore contains a keyword of length 0, refuting the claim that every
extracted keyword has length greater than 2. -/
theorem extract_keywords_short_keyword :
    ("") ∈ _extract_keywords ("???") ∧ ¬ (("").length > 2) := by
  decide

/-- C9 amended: the keyword set consists exactly of the strings obtained by
lower-casing each whitespace-separated token whose RAW length exceeds 2 and
stripping the punctuation characters from BOTH ends, minus the stop-word
set; keywords may end up shorter than 3 characters (even empty). -/
theorem extract_keywords_characterisation (text s : String) :
    s ∈ _extract_keywords text ↔
      (s ∉ stop_words ∧ ∃ w, w ∈ pyWords text ∧ w.length > 2 ∧ s = pyStrip (pyLower w)) := by
  simp only [_extract_keywords, List.mem_filter, List.mem_dedup, List.mem_map,
    decide_eq_true_eq, gt_iff_lt]
  constructor
  · rintro ⟨⟨w, ⟨hw, hlen⟩, rfl⟩, hstop⟩
    exact ⟨hstop, w, hw, hlen, rfl⟩
  · rintro ⟨hstop, w, hw, hlen, rfl⟩
    exact ⟨⟨w, ⟨hw, hlen⟩, rfl⟩, hstop⟩

lemma keysOf_cons (k : String) (v : ScorePair) (m : List (String × ScorePair)) :
    keysOf ((k, v) :: m) = k :: keysOf m := rfl

lemma keysOf_append (m m2 : List (String × ScorePair)) :
    keysOf (m ++ m2) = keysOf m ++ keysOf m2 := List.map_append _ _ _

lemma dictGet_of_not_mem {m : List (String × ScorePair)} {d : String}
    (h : d ∉ keysOf m) : dictGet m d = (0, 0) := by
  induction m with
  | nil => rfl
  | cons p rest ih =>
      rcases p with ⟨k, v⟩
      rw [keysOf_cons, List.mem_cons] at h
      push_neg at h
      simp only [dictGet]
      rw [if_neg (fun hkd => h.1 hkd.symm)]
      exact ih h.2

lemma dictSet_of_not_mem {m : List (String × ScorePair)} {d : String} {v : ScorePair}
    (h : d ∉ keysOf m) : dictSet m d v = m ++ [(d, v)] := by
  induction m with
  | nil => rfl
  | cons p rest ih =>
      rcases p with ⟨k, w⟩
      rw [keysOf_cons, List.mem_cons] at h
      push_neg at h
      simp only [dictSet]
      rw [if_neg (fun hkd => h.1 hkd.symm)]
      rw [ih h.2]
      rfl

lemma dictGet_dictSet_self {m : List (String × ScorePair)} {d : String} {v : ScorePair} :
    dictGet (dictSet m d v) d = v := by
  induction m with
  | nil => simp [dictSet, dictGet]
  | cons p rest ih =>
      rcases p with ⟨k, w⟩
      by_cases hkd : k = d
      · simp [dictSet, dictGet, hkd]
      · simp [dictSet, dictGet, hkd, ih]

lemma dictGet_dictSet_ne {m : List (String × ScorePair)} {d k : String} {v : ScorePair}
    (h : k ≠ d) : dictGet (dictSet m d v) k = dictGet m k := by
  induction m with
  | nil =>
      simp only [dictSet, dictGet]
      rw [if_neg (fun hdk : d = k => h hdk.symm)]
  | cons p rest ih =>
      rcases p with ⟨a, w⟩
      by_cases had : a = d
      · have hak : ¬ a = k := fun hak => h (hak ▸ had)
        simp only [dictSet, if_pos had, dictGet, if_neg hak]
      · simp only [dictSet, if_neg had, dictGet]
        by_cases hak : a = k
        · rw [if_pos hak, if_pos hak]
        · rw [if_neg hak, if_neg hak, ih]

lemma keysOf_dictSet (m : List (String × ScorePair)) (d : String) (v : ScorePair) :
    keysOf (dictSet m d v) = (if d ∈ keysOf m then keysOf m else keysOf m ++ [d]) := by
  induction m with
  | nil => simp [dictSet, keysOf]
  | cons p rest ih =>
      rcases p with ⟨k, w⟩
      by_cases hkd : k = d
      · subst hkd
        have h1 : dictSet ((k, w) :: rest) k v = (k, v) :: rest := by
          simp [dictSet]
        rw [h1, keysOf_cons, keysOf_cons, if_pos (List.mem_cons_self k (keysOf rest))]
      · have hdk : ¬ d = k := fun h => hkd h.symm
        simp only [dictSet, if_neg hkd, keysOf_cons, ih, List.mem_cons]
        by_cases hd : d ∈ keysOf rest
        · rw [if_pos hd, if_pos (Or.inr hd)]
        · rw [if_neg hd, if_neg (fun h => h.elim hdk hd)]
          rfl

lemma mem_keysOf_dictSet {m : List (String × ScorePair)} {d k : String} {v : ScorePair} :
    k ∈ keysOf (dictSet m d v) ↔ k = d ∨ k ∈ keysOf m := by
  rw [keysOf_dictSet]
  by_cases hd : d ∈ keysOf m
  · simp only [if_pos hd]
    constructor
    · exact Or.inr
    · rintro (rfl | h)
      · exact hd
      · exact h
  · simp [if_neg hd, or_comm]

lemma keysOf_dictSet_nodup {m : List (String × ScorePair)} {d : String} {v : ScorePair}
    (h : (keysOf m).Nodup) : (keysOf (dictSet m d v)).Nodup := by
  rw [keysOf_dictSet]
  by_cases hd : d ∈ keysOf m
  · simpa [if_pos hd] using h
  · rw [if_neg hd]
    simpa [List.nodup_append] using ⟨h, hd⟩

lemma lexPass_append {hits : List String} (hn : hits.Nodup) :
    ∀ {r : ℕ} {m : List (String × ScorePair)}, (∀ d ∈ hits, d ∉ keysOf m) →
      lexPass hits r m = m ++ freshLex hits r := by
  induction hits with
  | nil => intro r m _; simp [lexPass, freshLex]
  | cons d rest ih =>
      intro r m h
      have hd : d ∉ keysOf m := h d (List.mem_cons_self d rest)
      have hrest : rest.Nodup := (List.nodup_cons.mp hn).2
      have hdrest : d ∉ rest := (List.nodup_cons.mp hn).1
      simp only [lexPass]
      rw [dictGet_of_not_mem hd, dictSet_of_not_mem hd]
      rw [ih hrest (fun x hx => ?_), freshLex]
      · simp
      · rw [keysOf_append, List.mem_append]
        push_neg
        refine ⟨h x (List.mem_cons_of_mem d hx), ?_⟩
        simp only [keysOf, List.map_cons, List.map_nil, List.mem_singleton]
        exact fun hxd => hdrest (hxd ▸ hx)

lemma lexPass_nil_eq {hits : List String} (hn : hits.Nodup) (r : ℕ) :
    lexPass hits r [] = freshLex hits r := by
  simpa using lexPass_append hn (r := r) (m := []) (by simp [keysOf])

lemma dictGet_freshLex_of_mem {hits : List String} (hn : hits.Nodup) :
    ∀ {r : ℕ} {d : String}, d ∈ hits →
      dictGet (freshLex hits r) d = (_rrf_score (r + hits.indexOf d), 0) := by
  induction hits with
  | nil => intro r d hd; cases hd
  | cons a rest ih =>
      intro r d hd
      have hrest : rest.Nodup := (List.nodup_cons.mp hn).2
      by_cases hda : a = d
      · subst hda
        simp [freshLex, dictGet, List.indexOf_cons_self]
      · have hdr : d ∈ rest := by
          rcases List.mem_cons.mp hd with h | h
          · exact absurd h.symm hda
          · exact h
        simp only [freshLex, dictGet, if_neg hda]
        rw [ih hrest hdr]
        have : r + 1 + rest.indexOf d = r + (a :: rest).indexOf d := by
          rw [List.indexOf_cons_ne _ hda]
          omega
        rw [this]

lemma dictGet_freshLex_of_not_mem {hits : List String} {d : String} (hd : d ∉ hits) :
    ∀ {r : ℕ}, dictGet (freshLex hits r) d = (0, 0) := by
  induction hits with
  | nil => intro r; rfl
  | cons a rest ih =>
      intro r
      have h1 : a ≠ d := fun h => hd (h ▸ List.mem_cons_self a rest)
      have h2 : d ∉ rest := fun h => hd (List.mem_cons_of_mem a h)
      simp only [freshLex, dictGet, if_neg h1]
      exact ih h2

lemma keysOf_freshLex (hits : List String) (r : ℕ) :
    keysOf (freshLex hits r) = hits := by
  induction hits generalizing r with
  | nil => rfl
  | cons a rest ih => simp [freshLex, keysOf_cons, ih]

lemma dictGet_vecPass {vec : List String} (hv : vec.Nodup) :
    ∀ {r : ℕ} {m : List (String × ScorePair)} {d : String},
      dictGet (vecPass vec r m) d =
        (if d ∈ vec then ((dictGet m d).1, (dictGet m d).2 + _rrf_score (r + vec.indexOf d))
         else dictGet m d) := by
  induction vec with
  | nil => intro r m d; simp [vecPass]
  | cons a rest ih =>
      intro r m d
      have hrest : rest.Nodup := (List.nodup_cons.mp hv).2
      have hanr : a ∉ rest := (List.nodup_cons.mp hv).1
      simp only [vecPass]
      rw [ih hrest]
      by_cases hda : d = a
      · subst hda
        rw [if_neg hanr, dictGet_dictSet_self]
        rw [if_pos (List.mem_cons_self d rest)]
        simp [List.indexOf_cons_self]
      · rw [dictGet_dictSet_ne hda]
        by_cases hdr : d ∈ rest
        · rw [if_pos hdr, if_pos (List.mem_cons_of_mem a hdr)]
          have : r + 1 + rest.indexOf d = r + (a :: rest).indexOf d := by
            rw [List.indexOf_cons_ne _ (fun h => hda h.symm)]
            omega
          rw [this]
        · rw [if_neg hdr, if_neg (by simp [List.mem_cons, hda, hdr])]

lemma mem_keysOf_vecPass {vec : List String} :
    ∀ {r : ℕ} {m : List (String × ScorePair)} {d : String},
      d ∈ keysOf (vecPass vec r m) ↔ d ∈ vec ∨ d ∈ keysOf m := by
  induction vec with
  | nil => intro r m d; simp [vecPass]
  | cons a rest ih =>
      intro r m d
      simp only [vecPass]
      rw [ih, mem_keysOf_dictSet, List.mem_cons]
      tauto

lemma keysOf_vecPass_nodup {vec : List String} :
    ∀ {r : ℕ} {m : List (String × ScorePair)},
      (keysOf m).Nodup → (keysOf (vecPass vec r m)).Nodup := by
  induction vec with
  | nil => intro r m h; simpa [vecPass] using h
  | cons a rest ih =>
      intro r m h
      simp only [vecPass]
      exact ih (keysOf_dictSet_nodup h)

lemma dictGet_of_mem {m : List (String × ScorePair)} (hk : (keysOf m).Nodup) :
    ∀ {p : String × ScorePair}, p ∈ m → dictGet m p.1 = p.2 := by
  induction m with
  | nil => intro p hp; cases hp
  | cons q rest ih =>
      intro p hp
      rcases q with ⟨k, v⟩
      rw [keysOf_cons, List.nodup_cons] at hk
      rcases List.mem_cons.mp hp with rfl | hpr
      · simp [dictGet]
      · have hne : k ≠ p.1 := by
          intro hkp
          exact hk.1 (hkp ▸ (List.mem_map_of_mem (fun x => x.1) hpr))
        simp only [dictGet, if_neg hne]
        exact ih hk.2 hpr

lemma fusedMap_get {lex vec : List String} (hlex : lex.Nodup) (hvec : vec.Nodup) (d : String) :
    dictGet (vecPass vec 0 (lexPass lex 0 [])) d =
      ((if d ∈ lex then _rrf_score (lex.indexOf d) else 0),
       (if d ∈ vec then _rrf_score (vec.indexOf d) else 0)) := by
  rw [lexPass_nil_eq hlex, dictGet_vecPass hvec]
  by_cases hv : d ∈ vec <;> by_cases hl : d ∈ lex <;>
    simp [hv, hl, dictGet_freshLex_of_mem hlex, dictGet_freshLex_of_not_mem, zero_add]

lemma mem_insertDesc {x a : HybridResult} :
    ∀ {l : List HybridResult}, a ∈ insertDesc x l ↔ a = x ∨ a ∈ l := by
  intro l
  induction l with
  | nil => simp [insertDesc]
  | cons y ys ih =>
      simp only [insertDesc]
      by_cases h : y.score_fused < x.score_fused
      · simp [h, List.mem_cons]
      · simp only [if_neg h, List.mem_cons, ih]
        tauto

lemma sorted_insertDesc {x : HybridResult} :
    ∀ {l : List HybridResult}, List.Sorted fusedGE l → List.Sorted fusedGE (insertDesc x l) := by
  intro l
  induction l with
  | nil => intro _; simp [insertDesc, List.Sorted]
  | cons y ys ih =>
      intro hs
      rw [List.sorted_cons] at hs
      simp only [insertDesc]
      by_cases h : y.score_fused < x.score_fused
      · rw [if_pos h, List.sorted_cons]
        refine ⟨?_, List.sorted_cons.mpr hs⟩
        intro b hb
        rcases List.mem_cons.mp hb with rfl | hbys
        · exact le_of_lt h
        · exact le_trans (hs.1 b hbys) (le_of_lt h)
      · rw [if_neg h, List.sorted_cons]
        refine ⟨?_, ih hs.2⟩
        intro b hb
        rcases mem_insertDesc.mp hb with rfl | hbys
        · exact le_of_not_lt h
        · exact hs.1 b hbys

lemma sorted_foldl_insertDesc :
    ∀ (l acc : List HybridResult), List.Sorted fusedGE acc →
      List.Sorted fusedGE (List.foldl (fun acc x => insertDesc x acc) acc l) := by
  intro l
  induction l with
  | nil => intro acc h; simpa using h
  | cons x xs ih =>
      intro acc h
      simpa [List.foldl_cons] using ih (insertDesc x acc) (sorted_insertDesc h)

lemma sorted_sortDesc (l : List HybridResult) : List.Sorted fusedGE (sortDesc l) :=
  sorted_foldl_insertDesc l [] (by simp [List.Sorted])

lemma mem_foldl_insertDesc {a : HybridResult} :
    ∀ {l acc : List HybridResult},
      a ∈ List.foldl (fun acc x => insertDesc x acc) acc l ↔ a ∈ acc ∨ a ∈ l := by
  intro l
  induction l with
  | nil => intro acc; simp
  | cons x xs ih =>
      intro acc
      rw [List.foldl_cons, ih, mem_insertDesc]
      simp [List.mem_cons]
      tauto

lemma mem_sortDesc {a : HybridResult} {l : List HybridResult} :
    a ∈ sortDesc l ↔ a ∈ l := by
  rw [sortDesc, mem_foldl_insertDesc]
  simp

/-- C5: in the fusion step of `hybrid_query`, writing `M` for the score map
built by the two enumeration loops: a document belongs to `M` iff it occurs
in the lexical or the vector hit list; its fused score is
`_rrf_score r1 + _rrf_score r2` where `r1`, `r2` are its 0-indexed ranks in
the two lists, a term being 0 when the document is absent from that list;
and the returned results are sorted descending by fused score and truncated
to `top_k` entries. -/
theorem hybrid_query_rrf (lex vec : List String) (top_k : ℕ)
    (hlex : lex.Nodup) (hvec : vec.Nodup) :
    (∀ d, d ∈ keysOf (vecPass vec 0 (lexPass lex 0 [])) ↔ (d ∈ lex ∨ d ∈ vec))
    ∧ (∀ h, h ∈ hybrid_query_fuse lex vec top_k →
        (h.doc_id ∈ lex ∨ h.doc_id ∈ vec)
        ∧ h.score_fused = (if h.doc_id ∈ lex then _rrf_score (lex.indexOf h.doc_id) else 0)
            + (if h.doc_id ∈ vec then _rrf_score (vec.indexOf h.doc_id) else 0))
    ∧ List.Sorted fusedGE (hybrid_query_fuse lex vec top_k)
    ∧ (hybrid_query_fuse lex vec top_k).length ≤ top_k := by
  have hkeys : ∀ d, d ∈ keysOf (vecPass vec 0 (lexPass lex 0 [])) ↔ (d ∈ lex ∨ d ∈ vec) := by
    intro d
    rw [mem_keysOf_vecPass, lexPass_nil_eq hlex, keysOf_freshLex]
    tauto
  have hnodup : (keysOf (vecPass vec 0 (lexPass lex 0 []))).Nodup := by
    apply keysOf_vecPass_nodup
    rw [lexPass_nil_eq hlex, keysOf_freshLex]
    exact hlex
  refine ⟨hkeys, ?_, ?_, ?_⟩
  · intro h hmem
    have hmem2 : h ∈ sortDesc (fuseAll (vecPass vec 0 (lexPass lex 0 []))) :=
      List.mem_of_mem_take hmem
    rw [mem_sortDesc] at hmem2
    rcases List.mem_map.mp hmem2 with ⟨p, hp, rfl⟩
    have hv : dictGet (vecPass vec 0 (lexPass lex 0 [])) p.1 = p.2 := dictGet_of_mem hnodup hp
    have hform := fusedMap_get hlex hvec p.1
    rw [hv] at hform
    have hk : p.1 ∈ keysOf (vecPass vec 0 (lexPass lex 0 [])) :=
      List.mem_map_of_mem (fun x => x.1) hp
    refine ⟨(hkeys p.1).mp hk, ?_⟩
    dsimp only
    rw [hform]
  · exact (sorted_sortDesc _).sublist (List.take_sublist _ _)
  · exact List.length_take_le _ _

/-- C5 witness: the fusion theorem instantiated at two concrete no-duplicate
hit lists. -/
theorem hybrid_query_rrf_witness :
    ((["a", "b"] : List String).Nodup ∧ (["b", "c"] : List String).Nodup)
    ∧ ((∀ d, d ∈ keysOf (vecPass ["b", "c"] 0 (lexPass ["a", "b"] 0 []))
            ↔ (d ∈ (["a", "b"] : List String) ∨ d ∈ (["b", "c"] : List String)))
      ∧ (∀ h, h ∈ hybrid_query_fuse ["a", "b"] ["b", "c"] 2 →
          (h.doc_id ∈ (["a", "b"] : List String) ∨ h.doc_id ∈ (["b", "c"] : List String))
          ∧ h.score_fused = (if h.doc_id ∈ (["a", "b"] : List String)
                then _rrf_score ((["a", "b"] : List String).indexOf h.doc_id) else 0)
              + (if h.doc_id ∈ (["b", "c"] : List String)
                then _rrf_score ((["b", "c"] : List String).indexOf h.doc_id) else 0))
      ∧ List.Sorted fusedGE (hybrid_query_fuse ["a", "b"] ["b", "c"] 2)
      ∧ (hybrid_query_fuse ["a", "b"] ["b", "c"] 2).length ≤ 2) :=
  ⟨⟨by decide, by decide⟩, hybrid_query_rrf ["a", "b"] ["b", "c"] 2 (by decide) (by decide)⟩

lemma maxRank_cons (s : String) (rest : List String) :
    maxRank (s :: rest) = max (stateRank s) (maxRank rest) := rfl

lemma stateOfRank_le_two_ne_confirmed {n : ℕ} (h : n ≤ 2) :
    stateOfRank n ≠ ("confirmed") := by
  interval_cases n <;> decide

lemma stateOfRank_le_one_ne_probable {n : ℕ} (h : n ≤ 1) :
    stateOfRank n ≠ ("probable") := by
  interval_cases n <;> decide

lemma bestStateAux_rank (l : List String) : ∀ rb : ℕ, rb ≤ 2 →
    bestStateAux (stateOfRank rb) l = stateOfRank (max rb (maxRank l)) := by
  induction l with
  | nil =>
      intro rb h
      simp [bestStateAux, maxRank]
  | cons s rest ih =>
      intro rb hrb
      simp only [bestStateAux]
      by_cases h3 : s = ("confirmed")
      · rw [if_pos h3]
        have hr : stateRank s = 3 := by rw [stateRank, if_pos h3]
        have h4 : 3 ≤ max rb (maxRank (s :: rest)) := by
          rw [maxRank_cons, hr]
          omega
        rw [stateOfRank, if_pos h4]
      · rw [if_neg h3]
        by_cases h2 : s = ("probable")
        · rw [if_neg (fun hc : s = ("correlated")
              ∧ (if s = ("probable") ∧ stateOfRank rb ≠ ("confirmed")
                 then ("probable") else stateOfRank rb) ≠ ("probable")
              ∧ (if s = ("probable") ∧ stateOfRank rb ≠ ("confirmed")
                 then ("probable") else stateOfRank rb) ≠ ("confirmed") =>
            absurd hc.1 (by rw [h2]; decide))]
          rw [if_pos ⟨h2, stateOfRank_le_two_ne_confirmed hrb⟩]
          have he : ("probable") = stateOfRank 2 := rfl
          rw [he, ih 2 le_rfl]
          have hr : stateRank s = 2 := by rw [stateRank, if_neg h3, if_pos h2]
          rw [maxRank_cons, hr]
          congr 1
          omega
        · rw [if_neg (fun hp : s = ("probable") ∧ stateOfRank rb ≠ ("confirmed") => h2 hp.1)]
          by_cases h1 : s = ("correlated")
          · by_cases hrb2 : rb = 2
            · subst hrb2
              rw [if_neg (fun hc : s = ("correlated") ∧ stateOfRank 2 ≠ ("probable")
                    ∧ stateOfRank 2 ≠ ("confirmed") => hc.2.1 (by decide))]
              rw [ih 2 le_rfl]
              have hr : stateRank s = 1 := by
                rw [stateRank, if_neg h3, if_neg h2, if_pos h1]
              rw [maxRank_cons, hr]
              congr 1
              omega
            · have hrb1 : rb ≤ 1 := by omega
              rw [if_pos ⟨h1, stateOfRank_le_one_ne_probable hrb1,
                stateOfRank_le_two_ne_confirmed hrb⟩]
              have he : ("correlated") = stateOfRank 1 := rfl
              rw [he, ih 1 (by omega)]
              have hr : stateRank s = 1 := by
                rw [stateRank, if_neg h3, if_neg h2, if_pos h1]
              rw [maxRank_cons, hr]
              congr 1
              omega
          · rw [if_neg (fun hc : s = ("correlated") ∧ stateOfRank rb ≠ ("probable")
                  ∧ stateOfRank rb ≠ ("confirmed") => h1 hc.1)]
            rw [ih rb hrb]
            have hr : stateRank s = 0 := by
              rw [stateRank, if_neg h3, if_neg h2, if_neg h1]
            rw [maxRank_cons, hr]
            congr 1
            omega

lemma bestStateOf_eq_rank (states : List String) :
    bestStateOf states = stateOfRank (maxRank states) := by
  have h := bestStateAux_rank states 0 (by omega)
  rw [show stateOfRank 0 = ("observed") from rfl] at h
  rw [bestStateOf, h, Nat.zero_max]

lemma stateRank_ge_two_iff (s : String) :
    2 ≤ stateRank s ↔ (s = ("confirmed") ∨ s = ("probable")) := by
  by_cases h1 : s = ("confirmed")
  · simp [stateRank, h1]
  · by_cases h2 : s = ("probable")
    · simp [stateRank, h1, h2]
    · by_cases h3 : s = ("correlated") <;> simp [stateRank, h1, h2, h3]

lemma maxRank_ge_two_iff (states : List String) :
    2 ≤ maxRank states ↔ ∃ s ∈ states, s = ("confirmed") ∨ s = ("probable") := by
  induction states with
  | nil => simp [maxRank]
  | cons s rest ih =>
      rw [maxRank_cons, le_max_iff, ih, stateRank_ge_two_iff]
      constructor
      · rintro (h | ⟨t, ht, hts⟩)
        · exact ⟨s, List.mem_cons_self s rest, h⟩
        · exact ⟨t, List.mem_cons_of_mem s ht, hts⟩
      · rintro ⟨t, ht, hts⟩
        rcases List.mem_cons.mp ht with rfl | htr
        · exact Or.inl hts
        · exact Or.inr ⟨t, htr, hts⟩

lemma stateOfRank_high_iff (n : ℕ) :
    (stateOfRank n = ("confirmed") ∨ stateOfRank n = ("probable")) ↔ 2 ≤ n := by
  simp only [stateOfRank]
  by_cases h3 : 3 ≤ n
  · rw [if_pos h3]
    exact ⟨fun _ => by omega, fun _ => Or.inl rfl⟩
  · rw [if_neg h3]
    by_cases h2 : n = 2
    · rw [if_pos h2]
      exact ⟨fun _ => by omega, fun _ => Or.inr rfl⟩
    · rw [if_neg h2]
      have hlt : ¬ 2 ≤ n := by omega
      by_cases h1 : n = 1
      · rw [if_pos h1]
        exact ⟨fun h => (h.elim (fun hc => absurd hc (by decide))
            (fun hp => absurd hp (by decide))), fun h => absurd h hlt⟩
      · rw [if_neg h1]
        exact ⟨fun h => (h.elim (fun hc => absurd hc (by decide))
            (fun hp => absurd hp (by decide))), fun h => absurd h hlt⟩

lemma run_planner_ok (inp : PlannerInput) (env : PlannerEnv) (history : List AttemptRec)
    (hes : env.es_ok = true) (hcb : inp.has_progress_callback = true) :
    run_planner inp env history = Except.ok (plannerSuccess inp env history) := by
  simp [run_planner, hes, hcb]

lemma plannerSuccess_root_cause_candidates (inp : PlannerInput) (env : PlannerEnv)
    (history : List AttemptRec) :
    (plannerSuccess inp env history).1.root_cause_candidates
      = injectedCandidates (candidatesStage env) (closureMatchOf inp env).1
          (closureMatchOf inp env).2 := rfl

lemma plannerSuccess_root_cause_states (inp : PlannerInput) (env : PlannerEnv)
    (history : List AttemptRec) :
    (plannerSuccess inp env history).1.root_cause_states = finalStatesOf inp env := rfl

lemma plannerSuccess_hypothesis_list (inp : PlannerInput) (env : PlannerEnv)
    (history : List AttemptRec) :
    (plannerSuccess inp env history).1.pipeline_artifacts.hypothesis_list
      = finalStatesOf inp env := rfl

lemma plannerSuccess_remediations (inp : PlannerInput) (env : PlannerEnv)
    (history : List AttemptRec) :
    (plannerSuccess inp env history).1.remediations
      = remediationsFor (bestStateOf ((preStatesOf env).map (fun p => p.2)))
          (findingsOf env) env.incident_evidence (candidatesStage env) env.fix_evidence := rfl

lemma sumSignals_signalsGathered (env : PlannerEnv) :
    sumSignals (signalsGathered env) = (findingsOf env).length := by
  simp only [sumSignals, signalsGathered, findingsOf, List.map_cons, List.map_nil,
    List.sum_cons, List.sum_nil, List.length_append]
  omega

lemma plannerSuccess_run_delta (inp : PlannerInput) (env : PlannerEnv)
    (history : List AttemptRec) (hne : history.isEmpty = false) :
    (plannerSuccess inp env history).1.run_delta
      = some { signals_added := ((findingsOf env).length : ℤ)
                 - (sumSignals (signalsGathered env) : ℤ)
               confidence_delta := (confidenceOf inp env).confidence
                 - (confidenceOf inp env).confidence
               missing_resolved := (missingSignalsOf env).filter
                 (fun s => s ∉ missingSignalsOf env)
               root_cause_changed := headNotInsufficient
                 (injectedCandidates (candidatesStage env) (closureMatchOf inp env).1
                   (closureMatchOf inp env).2) } := by
  simp [plannerSuccess, hne]

/-- C3 (code bug at planner.py lines 324-328): the local `trace_ids` is
assigned only inside the `if progress_callback:` block yet read
unconditionally right after it, so every run whose Elasticsearch
connectivity check succeeds but which was invoked without a progress
callback raises `UnboundLocalError` instead of returning the structured
result; supplying a callback makes the very same run return normally. -/
theorem run_planner_unbound_local_trace_ids (inp : PlannerInput) (env : PlannerEnv)
    (history : List AttemptRec) (hes : env.es_ok = true) :
    (inp.has_progress_callback = false →
      run_planner inp env history
        = Except.error ("UnboundLocalError: local variable trace_ids referenced before assignment"))
    ∧ (inp.has_progress_callback = true →
      run_planner inp env history = Except.ok (plannerSuccess inp env history)) := by
  constructor
  · intro hcb
    simp [run_planner, hes, hcb]
  · intro hcb
    exact run_planner_ok inp env history hes hcb

/-- C3 witness: the failing input evaluated concretely — with the default
(no-callback) input the planner raises, with a callback it returns. -/
theorem run_planner_unbound_local_trace_ids_witness :
    (({} : PlannerEnv).es_ok = true)
    ∧ ((⟨("why is checkout slow"), none, none, 1, ("1h"), false⟩ : PlannerInput).has_progress_callback
        = false)
    ∧ run_planner ⟨("why is checkout slow"), none, none, 1, ("1h"), false⟩ ({} : PlannerEnv) []
        = Except.error ("UnboundLocalError: local variable trace_ids referenced before assignment")
    ∧ run_planner ⟨("why is checkout slow"), none, none, 1, ("1h"), true⟩ ({} : PlannerEnv) []
        = Except.ok (plannerSuccess ⟨("why is checkout slow"), none, none, 1, ("1h"), true⟩
            ({} : PlannerEnv) []) :=
  ⟨rfl, rfl,
   (run_planner_unbound_local_trace_ids _ _ [] rfl).1 rfl,
   (run_planner_unbound_local_trace_ids _ _ [] rfl).2 rfl⟩

/-- C7: remediation is gated by the best state among all candidate states —
`bestStateOf` computes the maximum under Confirmed > Probable > Correlated >
Observed, and it is confirmed-or-probable exactly when some candidate state
is; in that case the pipeline attempts to propose concrete fixes, subject
to the citation/evidence validator; a best state of correlated yields the
single low-risk gather-more-evidence action; and an observed best state
yields the single low-risk broaden-scope action. -/
theorem remediation_gating (states : List String) (findings : List Finding)
    (incidents : List Incident) (cands : List String) (fixes : List FixEvidence) :
    ((bestStateOf states = ("confirmed") ∨ bestStateOf states = ("probable"))
        ↔ ∃ s ∈ states, s = ("confirmed") ∨ s = ("probable"))
    ∧ ((bestStateOf states = ("confirmed") ∨ bestStateOf states = ("probable")) →
        remediationsFor (bestStateOf states) findings incidents cands fixes
          = (if validate_before_propose findings incidents
                (cands.map (fun rc => (rc, findings.take 2)))
             then (fixes.take 3).map (fun e =>
                    { action := e.proposed_action, risk_level := e.risk_level })
             else [{ action := ("Gather more evidence before applying fix"),
                     risk_level := ("low") }]))
    ∧ (bestStateOf states = ("correlated") →
        remediationsFor (bestStateOf states) findings incidents cands fixes
          = [{ action := ("Gather more evidence to confirm hypothesis"),
               risk_level := ("low") }])
    ∧ (bestStateOf states = ("observed") →
        remediationsFor (bestStateOf states) findings incidents cands fixes
          = [{ action := ("Broaden scope or add missing signal sources"),
               risk_level := ("low") }]) := by
  refine ⟨?_, ?_, ?_, ?_⟩
  · rw [bestStateOf_eq_rank, stateOfRank_high_iff, maxRank_ge_two_iff]
  · intro h
    simp only [remediationsFor, if_pos (Or.symm h)]
  · intro h
    simp only [remediationsFor]
    rw [if_neg (by rw [h]; decide), if_pos h]
  · intro h
    simp only [remediationsFor]
    rw [if_neg (by rw [h]; decide), if_neg (by rw [h]; decide)]

/-- C7 witness: the gating theorem instantiated at a concrete state list
whose best state is probable. -/
theorem remediation_gating_witness :
    (bestStateOf [("correlated"), ("probable")] = ("confirmed")
      ∨ bestStateOf [("correlated"), ("probable")] = ("probable"))
    ∧ remediationsFor (bestStateOf [("correlated"), ("probable")]) [] [] [] []
        = (if validate_before_propose [] []
              (([] : List String).map (fun rc => (rc, ([] : List Finding).take 2)))
           then (([] : List FixEvidence).take 3).map (fun e =>
                  { action := e.proposed_action, risk_level := e.risk_level })
           else [{ action := ("Gather more evidence before applying fix"),
                   risk_level := ("low") }]) :=
  ⟨Or.inr (by decide),
   (remediation_gating [("correlated"), ("probable")] [] [] [] []).2.1 (Or.inr (by decide))⟩

/-- C8 amended: for every attempt after the first on the same scope
fingerprint, the run delta exists and its root-cause-changed flag is true
iff the current candidate list is non-empty with a first element different
from the insufficient-evidence sentinel; the previous attempt's top
candidate is neither recorded in attempt history nor consulted. (Moreover,
because the source appends the current record to the aliased history list
before reading the "previous" record, the numeric delta fields always
compare the run against itself: signals_added = 0, confidence_delta = 0,
missing_resolved = [].) -/
theorem run_delta_root_cause_changed (inp : PlannerInput) (env : PlannerEnv)
    (history : List AttemptRec) (hes : env.es_ok = true)
    (hcb : inp.has_progress_callback = true) (hh : history ≠ []) :
    ∃ out newHistory,
      run_planner inp env history = Except.ok (out, newHistory)
      ∧ ∃ d, out.run_delta = some d
          ∧ d.root_cause_changed = headNotInsufficient out.root_cause_candidates
          ∧ d.signals_added = 0
          ∧ d.confidence_delta = 0
          ∧ d.missing_resolved = [] := by
  have hne : history.isEmpty = false := by
    cases history with
    | nil => exact absurd rfl hh
    | cons a t => rfl
  refine ⟨(plannerSuccess inp env history).1, (plannerSuccess inp env history).2,
    by rw [run_planner_ok inp env history hes hcb], ?_⟩
  refine ⟨_, plannerSuccess_run_delta inp env history hne, ?_, ?_, ?_, ?_⟩
  · rw [plannerSuccess_root_cause_candidates]
  · rw [sumSignals_signalsGathered]
    exact sub_self _
  · exact sub_self _
  · simp

/-- C8 amended witness: the theorem instantiated at a second attempt with
concrete data. -/
theorem run_delta_root_cause_changed_witness :
    (({} : PlannerEnv).es_ok = true)
    ∧ ((⟨("q"), none, none, 1, ("1h"), true⟩ : PlannerInput).has_progress_callback = true)
    ∧ ([(⟨1, 0, [], [], 0⟩ : AttemptRec)] ≠ [])
    ∧ (∃ out newHistory,
        run_planner ⟨("q"), none, none, 1, ("1h"), true⟩ ({} : PlannerEnv)
            [(⟨1, 0, [], [], 0⟩ : AttemptRec)]
          = Except.ok (out, newHistory)
        ∧ ∃ d, out.run_delta = some d
            ∧ d.root_cause_changed = headNotInsufficient out.root_cause_candidates
            ∧ d.signals_added = 0
            ∧ d.confidence_delta = 0
            ∧ d.missing_resolved = []) :=
  ⟨rfl, rfl, by simp,
   run_delta_root_cause_changed ⟨("q"), none, none, 1, ("1h"), true⟩ ({} : PlannerEnv)
     [(⟨1, 0, [], [], 0⟩ : AttemptRec)] rfl rfl (by simp)⟩

/-- C8 counterexample: two identical consecutive runs on the same scope
produce the same top root-cause candidate, yet the second run's delta
reports root_cause_changed = true — the flag does not compare against the
previous attempt's top candidate (which the attempt history does not even
record); it only checks that the current top candidate is not the
insufficient-evidence sentinel. -/
theorem run_delta_counterexample :
    (run_planner ⟨("q"), none, none, 1, ("1h"), true⟩
        { log_evidence := [{ message := some ("db timeout") }]
          llm_summary := some ("Database connection pool exhausted") } []).map
        (fun r => r.1.root_cause_candidates.head?)
      = Except.ok (some ("Database connection pool exhausted"))
    ∧ ((run_planner ⟨("q"), none, none, 1, ("1h"), true⟩
        { log_evidence := [{ message := some ("db timeout") }]
          llm_summary := some ("Database connection pool exhausted") } []).bind
        (fun r => run_planner ⟨("q"), none, none, 1, ("1h"), true⟩
          { log_evidence := [{ message := some ("db timeout") }]
            llm_summary := some ("Database connection pool exhausted") } r.2)).map
        (fun r => (r.1.root_cause_candidates.head?,
                   r.1.run_delta.map (fun d => d.root_cause_changed)))
      = Except.ok (some ("Database connection pool exhausted"), some true) := by
  constructor
  · rfl
  · rfl

lemma strIn_append_self (p a : String) : strIn a (p ++ a) = true := by
  simp only [strIn, decide_eq_true_eq]
  exact ⟨p.data, [], by simp [String.data_append]⟩

lemma pyTake_of_le {s : String} {n : ℕ} (h : s.length ≤ n) : pyTake s n = s := by
  simp only [pyTake]
  rw [List.take_of_length_le h]

/-- C10: when the closure-memory match injects a past-resolution candidate
(match score at least 0.4, stored root cause non-empty and not a substring
of any existing candidate), the returned candidate list is the
pre-injection list plus the injected "[Past resolution]" entry, so it has
exactly one more element than the state list; the injected candidate never
receives a lifecycle state, is absent from the hypothesis list of the
pipeline artifacts (which coincides with the state list) whenever the
stored root cause fits the 200-character truncation, and the remediations
are computed from the pre-injection states only. -/
theorem past_resolution_injection (inp : PlannerInput) (env : PlannerEnv)
    (history : List AttemptRec) (c : Closure)
    (hes : env.es_ok = true) (hcb : inp.has_progress_callback = true)
    (hmc : (closureMatchOf inp env).2 = some c)
    (hscore : (closureMatchOf inp env).1 ≥ 0.4)
    (hrc : c.root_cause ≠ (""))
    (hnotsub : ∀ cand ∈ candidatesStage env, strIn c.root_cause cand = false) :
    ∃ out newHistory,
      run_planner inp env history = Except.ok (out, newHistory)
      ∧ out.root_cause_candidates
          = candidatesStage env ++ [("[Past resolution] ") ++ pyTake c.root_cause 200]
      ∧ out.root_cause_candidates.length = out.root_cause_states.length + 1
      ∧ out.root_cause_states.map (fun p => p.1) = candidatesStage env
      ∧ out.pipeline_artifacts.hypothesis_list = out.root_cause_states
      ∧ out.remediations
          = remediationsFor (bestStateOf ((preStatesOf env).map (fun p => p.2)))
              (findingsOf env) env.incident_evidence (candidatesStage env) env.fix_evidence
      ∧ (c.root_cause.length ≤ 200 →
          (("[Past resolution] ") ++ pyTake c.root_cause 200)
            ∉ out.root_cause_states.map (fun p => p.1)) := by
  have hany : (candidatesStage env).any (fun cand => strIn c.root_cause cand) = false := by
    rw [List.any_eq_false]
    intro x hx
    rw [hnotsub x hx]
    simp
  have hinj : injectedCandidates (candidatesStage env) (closureMatchOf inp env).1
      (closureMatchOf inp env).2
      = candidatesStage env ++ [("[Past resolution] ") ++ pyTake c.root_cause 200] := by
    rw [hmc]
    simp only [injectedCandidates]
    rw [if_pos hscore, if_pos ⟨hrc, hany⟩]
  have hfst : (finalStatesOf inp env).map (fun p => p.1) = candidatesStage env := by
    simp [finalStatesOf, preStatesOf, List.map_map, Function.comp_def]
  have hlen : (finalStatesOf inp env).length = (candidatesStage env).length := by
    simp [finalStatesOf, preStatesOf]
  refine ⟨(plannerSuccess inp env history).1, (plannerSuccess inp env history).2,
    by rw [run_planner_ok inp env history hes hcb], ?_, ?_, ?_, ?_, ?_, ?_⟩
  · rw [plannerSuccess_root_cause_candidates, hinj]
  · rw [plannerSuccess_root_cause_candidates, hinj, plannerSuccess_root_cause_states]
    simp [List.length_append, hlen]
  · rw [plannerSuccess_root_cause_states]
    exact hfst
  · rw [plannerSuccess_hypothesis_list, plannerSuccess_root_cause_states]
  · rw [plannerSuccess_remediations]
  · intro h200 hmem
    rw [plannerSuccess_root_cause_states, hfst] at hmem
    have hfalse := hnotsub _ hmem
    rw [pyTake_of_le h200, strIn_append_self] at hfalse
    exact Bool.noConfusion hfalse

lemma closureMatch_w : closureMatchOf inp_w env_w = (0.6, some c_w) := by
  have hsc : closureScore (_extract_keywords ("")) (some ("api"))
      (findingMessagesText (findingsOf env_w)) (currentSignals (findingsOf env_w)) c_w
      = 0 + 0.2 + 0.3 + 0.1 := rfl
  show _match_closures ("") (some ("api")) (findingsOf env_w) [c_w] = (0.6, some c_w)
  simp only [_match_closures, bestClosureAux]
  rw [if_neg (by decide : ¬ ([c_w] = ([] : List Closure)))]
  dsimp only
  rw [hsc]
  rw [if_pos (by norm_num : ((0 : ℚ) + 0.2 + 0.3 + 0.1) > 0)]
  dsimp only
  rw [min_eq_left (by norm_num : ((0 : ℚ) + 0.2 + 0.3 + 0.1) ≤ 1)]
  norm_num

/-- C10 witness: the injection theorem instantiated at the concrete data. -/
theorem past_resolution_injection_witness :
    (env_w.es_ok = true)
    ∧ (inp_w.has_progress_callback = true)
    ∧ ((closureMatchOf inp_w env_w).2 = some c_w)
    ∧ ((closureMatchOf inp_w env_w).1 ≥ 0.4)
    ∧ (c_w.root_cause ≠ (""))
    ∧ (∀ cand ∈ candidatesStage env_w, strIn c_w.root_cause cand = false)
    ∧ (∃ out newHistory,
        run_planner inp_w env_w [] = Except.ok (out, newHistory)
        ∧ out.root_cause_candidates
            = candidatesStage env_w ++ [("[Past resolution] ") ++ pyTake c_w.root_cause 200]
        ∧ out.root_cause_candidates.length = out.root_cause_states.length + 1
        ∧ out.root_cause_states.map (fun p => p.1) = candidatesStage env_w
        ∧ out.pipeline_artifacts.hypothesis_list = out.root_cause_states
        ∧ out.remediations
            = remediationsFor (bestStateOf ((preStatesOf env_w).map (fun p => p.2)))
                (findingsOf env_w) env_w.incident_evidence (candidatesStage env_w)
                env_w.fix_evidence
        ∧ (c_w.root_cause.length ≤ 200 →
            (("[Past resolution] ") ++ pyTake c_w.root_cause 200)
              ∉ out.root_cause_states.map (fun p => p.1))) :=
  ⟨rfl, rfl,
   by rw [closureMatch_w],
   by rw [closureMatch_w]; norm_num,
   by decide,
   by decide,
   past_resolution_injection inp_w env_w [] c_w rfl rfl
     (by rw [closureMatch_w]) (by rw [closureMatch_w]; norm_num) (by decide) (by decide)⟩

end ObsAgent
